import Mathlib

/-!
# Product data access (`product/product.data.go`)

A shallow embedding of the product repository of the inventory web service:
`getProduct`, `removeProduct`, `getProductList`, `updateProduct`,
`insertProduct`, `GetTopTenProducts` and `SearchForProductData`, together with
the package variable `productMap`.

Modelling conventions.

* Go `string` values are modelled by `String` (a sequence of Unicode code
  points); byte strings that are not valid UTF-8 are outside the model.
* A Go `error` is `Option GoError`; `none` is `nil`.  `sql.ErrNoRows` is a
  distinguished value of `GoError`, since the source compares against it with
  `==`.
* A Go result pair `(v, err)` of the functions embedded here is a Lean pair.
  The pairs returned by the `database/sql` connection (`ExecContext`,
  `QueryContext`, `LastInsertId`) are `Except GoError _`, following the
  `database/sql` promise that exactly one side is set.
* `database.DbConn` is a collaborator that lives outside the file; it is a
  parameter `db : DbConn` whose fields answer each call by its outcome.
  Deadlines (`context.WithTimeout`) show up as an error outcome of the call and
  are not modelled further.  Console logging is not modelled.
* `strings.ToLower` maps every code point through `unicode.ToLower`; the
  Unicode table is a parameter `lowerRune : Char → Char`.
-/

set_option maxRecDepth 8000

namespace ProductData

/-! ## Data model -/

/-- Go `error` values that are not `nil`. `ErrNoRows` is `sql.ErrNoRows`. -/
inductive GoError where
  | ErrNoRows : GoError
  | other (msg : String) : GoError
  deriving DecidableEq, Repr

/-- Modelled from the spec: the `Product` struct type, whose declaration is in
another file of the package. The fields are the seven attributes of the Product
Entity, under the names this file uses for them. `PricePerUnit` is a fixed-point
decimal, held here as its number of hundredths. -/
structure Product where
  ProductID : Int
  Manufacturer : String
  Sku : String
  Upc : String
  PricePerUnit : Int
  QuantityOnHand : Int
  ProductName : String
  deriving DecidableEq, Repr

/-- Go zero value of `Product` (`Product{}`, `var product Product`). -/
def Product.zero : Product :=
  { ProductID := 0, Manufacturer := "", Sku := "", Upc := "", PricePerUnit := 0,
    QuantityOnHand := 0, ProductName := "" }

/-- Modelled from the spec: the `ProductReportFilter` struct type, whose
declaration is in another file of the package. The fields are the three filter
fragments, under the names this file uses for them. -/
structure ProductReportFilter where
  NameFilter : String
  ManufacturerFilter : String
  SKUFILTER : String
  deriving DecidableEq, Repr

/-- A value bound to a `?` placeholder (`interface{}` argument of the driver). -/
inductive SqlArg where
  | int (v : Int) : SqlArg
  | text (v : String) : SqlArg
  deriving DecidableEq, Repr

/-! ## The database connection -/

/-- One row as seen by `Scan`: given the destination product (the seven
destination pointers), the product after the scan and the error `Scan`
returns. -/
structure Row where
  Scan : Product → Product × Option GoError

/-- Go `sql.Result` of a successful `ExecContext`. -/
structure Result where
  LastInsertId : Except GoError Int
  RowsAffected : Except GoError Int

/-- Go `*sql.Rows` of a successful `QueryContext`: the rows that the
`for results.Next()` loop iterates, in order. -/
structure Rows where
  rows : List Row

/-- The connection `database.DbConn`: each call is answered by its outcome. -/
structure DbConn where
  QueryRowContext : String → List SqlArg → Row
  ExecContext : String → List SqlArg → Except GoError Result
  QueryContext : String → List SqlArg → Except GoError Rows

/-! ## The package variable `productMap` -/

/-- The map `productMap.m` of type `map[int]Product`. -/
abbrev ProductMap := Int → Option Product

/-- Initial value `make(map[int]Product)`. -/
def productMap : ProductMap := fun _ => none

/-! ## `strings.ToLower` -/

/-- Go `strings.ToLower`: every code point mapped through `unicode.ToLower`. -/
def ToLower (lowerRune : Char → Char) (s : String) : String :=
  s.map lowerRune

/-! ## SQL texts -/

/-- Query text of `getProduct`. -/
def getProductSQL : String :=
  " SELECT productId, \n\tmanufacturer, \n\tsku, \n\tupc, \n\tpricePerUnit, \n\tquantityOnHand,\n\tproductName\n\tFROM inventorydb.products\n\tWHERE productId = ?; "

/-- Statement text of `removeProduct`. -/
def removeProductSQL : String :=
  "DELETE FROM inventorydb.products WHERE productId = ?"

/-- Query text of `getProductList`. -/
def getProductListSQL : String :=
  "SELECT productId, \n\tmanufacturer, \n\tsku, \n\tupc, \n\tpricePerUnit, \n\tquantityOnHand,\n\tproductName\n\tFROM inventorydb.products;"

/-- Statement text of `updateProduct`. -/
def updateProductSQL : String :=
  "UPDATE products SET \n\t\tmanufacturer=?,\n\t\tsku=?,\n\t\tupc=?,\n\t\tpricePerUnit=CAST(? AS DECIMAL (13,2)),\n\t\tquantityOnHand=?,\n\t\tproductName=?\n\t\tWHERE productId=?"

/-- Statement text of `insertProduct`. -/
def insertProductSQL : String :=
  "INSERT INTO products\n\t(manufacturer,\n\t\tsku,\n\t\tupc,\n\t\tpricePerUnit,\n\t\tquantityOnHand,\n\t\tproductName) VALUES (?,?,?,?,?,?)"

/-- Query text of `GetTopTenProducts`. -/
def topTenSQL : String :=
  "SELECT productId, \n\tmanufacturer, \n\tsku, \n\tupc, \n\tpricePerUnit, \n\tquantityOnHand,\n\tproductName\n\tFROM inventorydb.products ORDER BY quantityOnHand DESC LIMIT 10;"

/-- First `WriteString` of `SearchForProductData`: the text up to and including
the keyword `WHERE`. Nothing follows the keyword. -/
def searchSelectSQL : String :=
  "SELECT\n\t\tproductId,\n\t\tLOWER(manufacturer),\n\t\tLOWER(sku),\n\t\tupc,\n\t\tpricePerUnit,\n\t\tquantityOnHand,\n\t\tLOWER(productName)\n\t\tFROM inventorydb.products WHERE"

/-! ## Repository operations -/

/-- Go `getProduct`. The result is `(*Product, error)`; `none` is `nil`. -/
def getProduct (db : DbConn) (productID : Int) : Option Product × Option GoError :=
  let row := db.QueryRowContext getProductSQL [SqlArg.int productID]
  let product := Product.zero
  let (product, err) := row.Scan product
  if err = some GoError.ErrNoRows then
    (none, none)
  else if err ≠ none then
    (none, err)
  else
    (some product, none)

/-- Go `removeProduct`. -/
def removeProduct (db : DbConn) (productID : Int) : Option GoError :=
  match db.ExecContext removeProductSQL [SqlArg.int productID] with
  | Except.error err => some err
  | Except.ok _ => none

/-- The loop `for results.Next() { var product Product; results.Scan(...);
products = append(products, product) }` shared by the three list operations.
The value returned by `Scan` is dropped. -/
def scanLoop : List Row → List Product → List Product
  | [], products => products
  | row :: rest, products =>
    let product := Product.zero
    let (product, _) := row.Scan product
    scanLoop rest (products ++ [product])

/-- Go `getProductList`. The result is `([]Product, error)`; `none` is the
`nil` slice. -/
def getProductList (db : DbConn) : Option (List Product) × Option GoError :=
  match db.QueryContext getProductListSQL [] with
  | Except.error err => (none, some err)
  | Except.ok results =>
    let products : List Product := []
    (some (scanLoop results.rows products), none)

/-- Values bound by `updateProduct`, in the order of the call. -/
def updateProductArgs (product : Product) : List SqlArg :=
  [SqlArg.text product.Manufacturer, SqlArg.text product.Sku, SqlArg.text product.Upc,
   SqlArg.int product.PricePerUnit, SqlArg.int product.QuantityOnHand,
   SqlArg.text product.ProductName, SqlArg.int product.ProductID]

/-- Go `updateProduct`. -/
def updateProduct (db : DbConn) (product : Product) : Option GoError :=
  match db.ExecContext updateProductSQL (updateProductArgs product) with
  | Except.error err => some err
  | Except.ok _ => none

/-- Values bound by `insertProduct`, in the order of the call. -/
def insertProductArgs (product : Product) : List SqlArg :=
  [SqlArg.text product.Manufacturer, SqlArg.text product.Sku, SqlArg.text product.Upc,
   SqlArg.int product.PricePerUnit, SqlArg.int product.QuantityOnHand,
   SqlArg.text product.ProductName]

/-- Go `insertProduct`. The result is `(int, error)`; the conversion
`int(insertID)` is the identity on a 64-bit platform. -/
def insertProduct (db : DbConn) (product : Product) : Int × Option GoError :=
  match db.ExecContext insertProductSQL (insertProductArgs product) with
  | Except.error _ => (0, none)
  | Except.ok result =>
    match result.LastInsertId with
    | Except.error _ => (0, none)
    | Except.ok insertID => (insertID, none)

/-- Go `GetTopTenProducts`. -/
def GetTopTenProducts (db : DbConn) : Option (List Product) × Option GoError :=
  match db.QueryContext topTenSQL [] with
  | Except.error err => (none, some err)
  | Except.ok results =>
    let products : List Product := []
    (some (scanLoop results.rows products), none)

/-- Lines 191 to 219 of `SearchForProductData`: the final contents of
`queryBuilder` and of `queryArgs`. -/
def SearchForProductData.query (lowerRune : Char → Char) (productFilter : ProductReportFilter) :
    String × List String :=
  let queryArgs : List String := []
  let queryBuilder : String := ""
  let queryBuilder := queryBuilder ++ searchSelectSQL
  let (queryBuilder, queryArgs) :=
    if productFilter.NameFilter ≠ "" then
      let queryBuilder := queryBuilder ++ "productName LIKE ?"
      (queryBuilder, queryArgs ++ ["%" ++ ToLower lowerRune productFilter.NameFilter ++ "%"])
    else (queryBuilder, queryArgs)
  let (queryBuilder, queryArgs) :=
    if productFilter.ManufacturerFilter ≠ "" then
      let queryBuilder := if queryArgs.length > 0 then queryBuilder ++ " AND " else queryBuilder
      let queryBuilder := queryBuilder ++ "manufacturer LIKE ?"
      (queryBuilder, queryArgs ++ ["%" ++ ToLower lowerRune productFilter.ManufacturerFilter ++ "%"])
    else (queryBuilder, queryArgs)
  let (queryBuilder, queryArgs) :=
    if productFilter.SKUFILTER ≠ "" then
      let queryBuilder := if queryArgs.length > 0 then queryBuilder ++ " AND " else queryBuilder
      let queryBuilder := queryBuilder ++ "sku LIKE ?"
      (queryBuilder, queryArgs ++ ["%" ++ ToLower lowerRune productFilter.SKUFILTER ++ "%"])
    else (queryBuilder, queryArgs)
  (queryBuilder, queryArgs)

/-- Go `SearchForProductData`. -/
def SearchForProductData (lowerRune : Char → Char) (db : DbConn)
    (productFilter : ProductReportFilter) : Option (List Product) × Option GoError :=
  let (queryText, queryArgs) := SearchForProductData.query lowerRune productFilter
  match db.QueryContext queryText (queryArgs.map SqlArg.text) with
  | Except.error err => (none, some err)
  | Except.ok results =>
    let products : List Product := []
    (some (scanLoop results.rows products), none)

/-! ## Calls as steps on the package state

No statement of `getProduct`, `insertProduct` or `updateProduct` names
`productMap` (nor its lock), so a call leaves the variable as it found it. -/

/-- A call of `getProduct` with the contents of `productMap.m` before and after. -/
def getProduct.step (db : DbConn) (productID : Int) (m : ProductMap) :
    (Option Product × Option GoError) × ProductMap :=
  (getProduct db productID, m)

/-- A call of `insertProduct` with the contents of `productMap.m` before and after. -/
def insertProduct.step (db : DbConn) (product : Product) (m : ProductMap) :
    (Int × Option GoError) × ProductMap :=
  (insertProduct db product, m)

/-- A call of `updateProduct` with the contents of `productMap.m` before and after. -/
def updateProduct.step (db : DbConn) (product : Product) (m : ProductMap) :
    Option GoError × ProductMap :=
  (updateProduct db product, m)

/-! ## Vocabulary of the statements -/

/-- Number of positions of `s` at which `pat` starts. -/
def occurrencesIn (pat : List Char) : List Char → Nat
  | [] => 0
  | c :: cs => (if pat.isPrefixOf (c :: cs) then 1 else 0) + occurrencesIn pat cs

/-- Number of occurrences of the text `pat` in the text `s`. -/
def occurrences (pat s : String) : Nat :=
  occurrencesIn pat.toList s.toList

/-- Number of occurrences of the character `c` in the text `s`. -/
def countChar (c : Char) (s : String) : Nat :=
  s.toList.count c

/-- Whether the text `s` begins with `pat`. -/
def beginsWith (pat s : String) : Bool :=
  pat.toList.isPrefixOf s.toList

/-- Whether the text `s` ends with `pat`. -/
def endsWith (pat s : String) : Bool :=
  pat.toList.isSuffixOf s.toList

/-- The three filter fields with their predicate fragments, in the fixed order
name, manufacturer, sku. -/
def filterFields (f : ProductReportFilter) : List (String × String) :=
  [(f.NameFilter, "productName LIKE ?"),
   (f.ManufacturerFilter, "manufacturer LIKE ?"),
   (f.SKUFILTER, "sku LIKE ?")]

/-- The fields that are not the empty string, with their fragments, in order. -/
def presentFields (f : ProductReportFilter) : List (String × String) :=
  (filterFields f).filter (fun p => p.1 ≠ "")

/-- Stated from the specification: the predicate text, the fragments of the
non-empty filters joined by the separator. -/
def joinedFragments (f : ProductReportFilter) : String :=
  " AND ".intercalate ((presentFields f).map Prod.snd)

/-- Stated from the specification: the bound values, one per non-empty filter,
each the lower-cased value between two percent signs. -/
def boundValues (lowerRune : Char → Char) (f : ProductReportFilter) : List String :=
  (presentFields f).map (fun p => "%" ++ ToLower lowerRune p.1 ++ "%")

/-- Two texts of the same length whose code points have, position by position,
the same lower-case form under `lowerRune`. -/
def lowerAgree (lowerRune : Char → Char) : List Char → List Char → Bool
  | [], [] => true
  | c :: cs, d :: ds => lowerRune c == lowerRune d && lowerAgree lowerRune cs ds
  | _, _ => false

/-- Two filters whose three fields agree once lower-cased: the spellings that
`strings.ToLower` identifies. -/
def sameLowerCasing (lowerRune : Char → Char) (f g : ProductReportFilter) : Prop :=
  lowerAgree lowerRune f.NameFilter.toList g.NameFilter.toList = true ∧
  lowerAgree lowerRune f.ManufacturerFilter.toList g.ManufacturerFilter.toList = true ∧
  lowerAgree lowerRune f.SKUFILTER.toList g.SKUFILTER.toList = true

/-- Two code points that are one letter in possibly different case: they are
equal, or one is the upper-case or the lower-case form of the other. -/
def sameLetter (upperRune lowerRune : Char → Char) (c d : Char) : Bool :=
  c == d || upperRune c == d || upperRune d == c || lowerRune c == d || lowerRune d == c

/-- Two texts of the same length that are, position by position, the same
letter in possibly different case. -/
def caseVariant (upperRune lowerRune : Char → Char) : List Char → List Char → Bool
  | [], [] => true
  | c :: cs, d :: ds => sameLetter upperRune lowerRune c d && caseVariant upperRune lowerRune cs ds
  | _, _ => false

/-- Two filters that differ only in the letter case of their three fields. This
is stated on the case forms of the letters, not on what the code does with
them. -/
def differOnlyInLetterCase (upperRune lowerRune : Char → Char)
    (f g : ProductReportFilter) : Prop :=
  caseVariant upperRune lowerRune f.NameFilter.toList g.NameFilter.toList = true ∧
  caseVariant upperRune lowerRune f.ManufacturerFilter.toList g.ManufacturerFilter.toList = true ∧
  caseVariant upperRune lowerRune f.SKUFILTER.toList g.SKUFILTER.toList = true

/-- The lower-case mapping of Go `unicode.ToLower` on the basic Latin capitals
(65 to 90) and the Greek capitals (913 to 929 and 931 to 939): the lower-case
form is 32 code points up. Other code points, among them every lower-case Latin
and Greek letter, are left as they are. -/
def latinGreekToLower (c : Char) : Char :=
  let n := c.toNat
  if (65 ≤ n ∧ n ≤ 90) ∨ (913 ≤ n ∧ n ≤ 929) ∨ (931 ≤ n ∧ n ≤ 939) then Char.ofNat (n + 32)
  else c

/-- The upper-case mapping of Go `unicode.ToUpper` on the basic Latin small
letters (97 to 122) and the Greek small letters (945 to 961 and 963 to 971): the
upper-case form is 32 code points down; the final sigma (962) has the capital
sigma (931) as its upper-case form. Other code points are left as they are. -/
def latinGreekToUpper (c : Char) : Char :=
  let n := c.toNat
  if (97 ≤ n ∧ n ≤ 122) ∨ (945 ≤ n ∧ n ≤ 961) ∨ (963 ≤ n ∧ n ≤ 971) then Char.ofNat (n - 32)
  else if n = 962 then Char.ofNat 931
  else c

/-- The filter with every field lower-cased. -/
def lowerFilter (lowerRune : Char → Char) (f : ProductReportFilter) : ProductReportFilter :=
  { NameFilter := ToLower lowerRune f.NameFilter,
    ManufacturerFilter := ToLower lowerRune f.ManufacturerFilter,
    SKUFILTER := ToLower lowerRune f.SKUFILTER }

/-! ## Sample connections -/

/-- A product as stored in the table. -/
def widget : Product :=
  { ProductID := 42, Manufacturer := "Acme", Sku := "A1", Upc := "000", PricePerUnit := 999,
    QuantityOnHand := 5, ProductName := "Widget" }

/-- A row whose `Scan` stores `p` in the destination and succeeds. -/
def goodRow (p : Product) : Row :=
  { Scan := fun _ => (p, none) }

/-- A row whose `Scan` fails with `e` and leaves the destination as it was. -/
def badRow (e : GoError) : Row :=
  { Scan := fun dest => (dest, some e) }

/-- A connection over a table that holds `widget` only: identifier 42 is found,
the lookup of identifier 13 fails in the driver, any other identifier has no
row; every statement executes, affects no row and reports insert id 43; every
query yields the widget row followed by a row whose `Scan` fails. -/
def sampleDb : DbConn :=
  { QueryRowContext := fun _ args =>
      if args = [SqlArg.int 42] then goodRow widget
      else if args = [SqlArg.int 13] then badRow (GoError.other "invalid connection")
      else badRow GoError.ErrNoRows
    ExecContext := fun _ _ => Except.ok { LastInsertId := Except.ok 43, RowsAffected := Except.ok 0 }
    QueryContext := fun _ _ =>
      Except.ok { rows := [goodRow widget, badRow (GoError.other "converting NULL to string")] } }

/-- A connection on which every statement and every query fails. -/
def brokenDb : DbConn :=
  { QueryRowContext := fun _ _ => badRow (GoError.other "invalid connection")
    ExecContext := fun _ _ => Except.error (GoError.other "invalid connection")
    QueryContext := fun _ _ => Except.error (GoError.other "invalid connection") }

/-- A connection on which statements execute but the driver cannot report the
insert id. -/
def noInsertIdDb : DbConn :=
  { QueryRowContext := fun _ _ => badRow GoError.ErrNoRows
    ExecContext := fun _ _ =>
      Except.ok { LastInsertId := Except.error (GoError.other "LastInsertId is not supported"),
                  RowsAffected := Except.ok 1 }
    QueryContext := fun _ _ => Except.ok { rows := [] } }

/-- A connection that refuses every statement and every query with an error
whose message is the text it was handed. -/
def echoDb : DbConn :=
  { QueryRowContext := fun _ _ => badRow GoError.ErrNoRows
    ExecContext := fun q _ => Except.error (GoError.other q)
    QueryContext := fun q _ => Except.error (GoError.other q) }

/-! ## The query built by `SearchForProductData` -/

/-- The text built is the fixed head followed by the joined fragments. -/
theorem query_text_eq (lowerRune : Char → Char) (f : ProductReportFilter) :
    (SearchForProductData.query lowerRune f).1 = searchSelectSQL ++ joinedFragments f := by
  unfold SearchForProductData.query joinedFragments presentFields filterFields
  by_cases h1 : f.NameFilter = "" <;> by_cases h2 : f.ManufacturerFilter = "" <;>
    by_cases h3 : f.SKUFILTER = "" <;> simp [h1, h2, h3] <;> decide

/-- The values bound are those of the non-empty fields, in order. -/
theorem query_args_eq (lowerRune : Char → Char) (f : ProductReportFilter) :
    (SearchForProductData.query lowerRune f).2 = boundValues lowerRune f := by
  unfold SearchForProductData.query boundValues presentFields filterFields
  by_cases h1 : f.NameFilter = "" <;> by_cases h2 : f.ManufacturerFilter = "" <;>
    by_cases h3 : f.SKUFILTER = "" <;> simp [h1, h2, h3]

/-- The text and the values built are what `QueryContext` receives. -/
theorem SearchForProductData_eq (lowerRune : Char → Char) (db : DbConn)
    (f : ProductReportFilter) :
    SearchForProductData lowerRune db f =
      match db.QueryContext (SearchForProductData.query lowerRune f).1
          ((SearchForProductData.query lowerRune f).2.map SqlArg.text) with
      | Except.error err => (none, some err)
      | Except.ok results => (some (scanLoop results.rows []), none) := by
  rfl

/-- C4: for every filter, the text that `SearchForProductData` writes after its
fixed `SELECT ... WHERE` head is exactly the fragments of the non-empty filters,
in the order name, manufacturer, sku, joined by the separator ` AND `. The
separator occurs as many times as there are non-empty filters minus one (zero
times when there is none), and the appended text neither begins nor ends with
it. -/
theorem search_text_joins_present_fragments (lowerRune : Char → Char)
    (f : ProductReportFilter) :
    (SearchForProductData.query lowerRune f).1 =
        searchSelectSQL ++ " AND ".intercalate ((presentFields f).map Prod.snd) ∧
      occurrences " AND " (joinedFragments f) = (presentFields f).length - 1 ∧
      beginsWith " AND " (joinedFragments f) = false ∧
      endsWith " AND " (joinedFragments f) = false := by
  refine ⟨query_text_eq lowerRune f, ?_⟩
  unfold joinedFragments presentFields filterFields
  by_cases h1 : f.NameFilter = "" <;> by_cases h2 : f.ManufacturerFilter = "" <;>
    by_cases h3 : f.SKUFILTER = "" <;> simp [h1, h2, h3] <;> decide

/-- C5: for every filter, the list of bound values has one entry per non-empty
field, in the order name, manufacturer, sku; each entry is `%`, the lower-cased
field, `%`; and the list is as long as the number of `?` placeholders of the
text. -/
theorem search_bound_values_match_placeholders (lowerRune : Char → Char)
    (f : ProductReportFilter) :
    (SearchForProductData.query lowerRune f).2 =
        ((filterFields f).filter (fun p => p.1 ≠ "")).map
          (fun p => "%" ++ ToLower lowerRune p.1 ++ "%") ∧
      (SearchForProductData.query lowerRune f).2.length =
        countChar '?' (SearchForProductData.query lowerRune f).1 := by
  refine ⟨query_args_eq lowerRune f, ?_⟩
  rw [query_text_eq, query_args_eq]
  unfold boundValues joinedFragments presentFields filterFields
  by_cases h1 : f.NameFilter = "" <;> by_cases h2 : f.ManufacturerFilter = "" <;>
    by_cases h3 : f.SKUFILTER = "" <;> simp [h1, h2, h3] <;> decide

/-- C1: with the three fields empty the text handed to the connection is the
fixed head alone: it ends with the keyword `WHERE`, no condition follows the
keyword, and no value is bound. -/
theorem search_all_empty_dangling_where (lowerRune : Char → Char) :
    SearchForProductData.query lowerRune ⟨"", "", ""⟩ = (searchSelectSQL, []) ∧
      endsWith "WHERE" (SearchForProductData.query lowerRune ⟨"", "", ""⟩).1 = true ∧
      occurrences "1=1" (SearchForProductData.query lowerRune ⟨"", "", ""⟩).1 = 0 ∧
      SearchForProductData lowerRune echoDb ⟨"", "", ""⟩ =
        (none, some (GoError.other searchSelectSQL)) := by
  have h : SearchForProductData.query lowerRune ⟨"", "", ""⟩ = (searchSelectSQL, []) := rfl
  refine ⟨h, ?_, ?_, rfl⟩
  · rw [h]; decide
  · rw [h]; decide

/-- C9: with only the name filter set, the text handed to the connection has the
keyword `WHERE` glued to the column name: no white space stands between them. -/
theorem search_where_glued_to_first_fragment (lowerRune : Char → Char) :
    (SearchForProductData.query lowerRune ⟨"widg", "", ""⟩).1 =
        searchSelectSQL ++ "productName LIKE ?" ∧
      occurrences "WHEREproductName" (SearchForProductData.query lowerRune ⟨"widg", "", ""⟩).1 = 1 ∧
      occurrences "WHERE productName" (SearchForProductData.query lowerRune ⟨"widg", "", ""⟩).1 = 0 ∧
      SearchForProductData lowerRune echoDb ⟨"widg", "", ""⟩ =
        (none, some (GoError.other (searchSelectSQL ++ "productName LIKE ?"))) := by
  have h : (SearchForProductData.query lowerRune ⟨"widg", "", ""⟩).1 =
      searchSelectSQL ++ "productName LIKE ?" := by
    rw [query_text_eq]; decide
  refine ⟨h, ?_, ?_, ?_⟩
  · rw [h]; decide
  · rw [h]; decide
  · rw [SearchForProductData_eq, h]; rfl

/-! ## Letter case of the filter -/

/-- Texts that agree once lower-cased have the same lower-cased code points. -/
theorem lowerAgree_map (lowerRune : Char → Char) :
    ∀ s t : List Char, lowerAgree lowerRune s t = true →
      s.map lowerRune = t.map lowerRune
  | [], [], _ => rfl
  | c :: cs, d :: ds, h => by
    simp only [lowerAgree, Bool.and_eq_true, beq_iff_eq] at h
    simp [h.1, lowerAgree_map lowerRune cs ds h.2]
  | [], _ :: _, h => by simp [lowerAgree] at h
  | _ :: _, [], h => by simp [lowerAgree] at h

/-- Texts that agree once lower-cased are empty together. -/
theorem lowerAgree_nil_iff (lowerRune : Char → Char) :
    ∀ s t : List Char, lowerAgree lowerRune s t = true → (s = [] ↔ t = [])
  | [], [], _ => by simp
  | _ :: _, _ :: _, _ => by simp
  | [], _ :: _, h => by simp [lowerAgree] at h
  | _ :: _, [], h => by simp [lowerAgree] at h

/-- A text is the empty string exactly when it has no code point. -/
theorem eq_empty_iff_toList (s : String) : s = "" ↔ s.toList = [] := by
  constructor
  · rintro rfl; rfl
  · intro h
    cases s with
    | mk d => simp only [String.toList] at h; subst h; rfl

/-- Lower-casing keeps the number of code points, so it keeps emptiness. -/
theorem ToLower_eq_empty_iff (lowerRune : Char → Char) (s : String) :
    ToLower lowerRune s = "" ↔ s = "" := by
  unfold ToLower
  rw [String.map_eq, eq_empty_iff_toList, eq_empty_iff_toList]
  simp [String.toList]

/-- Lower-casing twice is lower-casing once when that holds for code points. -/
theorem ToLower_idem (lowerRune : Char → Char)
    (hidem : ∀ c, lowerRune (lowerRune c) = lowerRune c) (s : String) :
    ToLower lowerRune (ToLower lowerRune s) = ToLower lowerRune s := by
  unfold ToLower
  rw [String.map_eq, String.map_eq]
  have hcomp : lowerRune ∘ lowerRune = lowerRune := funext hidem
  simp [hcomp]

/-- Texts that agree once lower-cased have the same `ToLower`. -/
theorem ToLower_eq_of_lowerAgree (lowerRune : Char → Char) (s t : String)
    (h : lowerAgree lowerRune s.toList t.toList = true) :
    ToLower lowerRune s = ToLower lowerRune t := by
  unfold ToLower
  rw [String.map_eq, String.map_eq]
  have hm := lowerAgree_map lowerRune _ _ h
  simp only [String.toList] at hm
  rw [hm]

/-- Strings that agree once lower-cased are the empty string together. -/
theorem eq_empty_iff_of_lowerAgree (lowerRune : Char → Char) (s t : String)
    (h : lowerAgree lowerRune s.toList t.toList = true) : s = "" ↔ t = "" := by
  rw [eq_empty_iff_toList, eq_empty_iff_toList]
  exact lowerAgree_nil_iff lowerRune _ _ h

/-- The query depends on the fields through their emptiness and their
lower-casing only. -/
theorem query_congr (lowerRune : Char → Char) (f g : ProductReportFilter)
    (h1 : ToLower lowerRune f.NameFilter = ToLower lowerRune g.NameFilter)
    (h2 : ToLower lowerRune f.ManufacturerFilter = ToLower lowerRune g.ManufacturerFilter)
    (h3 : ToLower lowerRune f.SKUFILTER = ToLower lowerRune g.SKUFILTER)
    (e1 : f.NameFilter = "" ↔ g.NameFilter = "")
    (e2 : f.ManufacturerFilter = "" ↔ g.ManufacturerFilter = "")
    (e3 : f.SKUFILTER = "" ↔ g.SKUFILTER = "") :
    SearchForProductData.query lowerRune f = SearchForProductData.query lowerRune g := by
  unfold SearchForProductData.query
  simp only [ne_eq, e1, e2, e3, h1, h2, h3]

/-- The Lean `Char.ofNat` keeps a number below the surrogate range. -/
theorem toNat_ofNat_of_lt (n : Nat) (h : n < 55296) : (Char.ofNat n).toNat = n := by
  have hv : n.isValidChar := Or.inl h
  unfold Char.ofNat
  rw [dif_pos hv]
  rfl

/-- ASCII lower-casing of a code point is idempotent. -/
theorem Char_toLower_idem (c : Char) : c.toLower.toLower = c.toLower := by
  unfold Char.toLower
  by_cases h : c.toNat ≥ 65 ∧ c.toNat ≤ 90
  · have hv : (Char.ofNat (c.toNat + 32)).toNat = c.toNat + 32 :=
      toNat_ofNat_of_lt _ (by omega)
    simp only [h]
    simp [hv]
    omega
  · simp [h]

/-- C6 fails on the code: the name filters `ΟΔΟΣ` and `οδος` differ only in
letter case (upper-casing the second gives the first, the final sigma having the
capital sigma as its upper-case form), yet `SearchForProductData` binds `%οδοσ%`
for the first and `%οδος%` for the second, so the two queries differ. -/
theorem search_query_final_sigma_counterexample :
    differOnlyInLetterCase latinGreekToUpper latinGreekToLower
        ⟨"ΟΔΟΣ", "", ""⟩ ⟨"οδος", "", ""⟩ ∧
      "οδος".toList.map latinGreekToUpper = "ΟΔΟΣ".toList ∧
      (SearchForProductData.query latinGreekToLower ⟨"ΟΔΟΣ", "", ""⟩).2 = ["%οδοσ%"] ∧
      (SearchForProductData.query latinGreekToLower ⟨"οδος", "", ""⟩).2 = ["%οδος%"] ∧
      SearchForProductData.query latinGreekToLower ⟨"ΟΔΟΣ", "", ""⟩ ≠
        SearchForProductData.query latinGreekToLower ⟨"οδος", "", ""⟩ := by
  have h1 : ToLower latinGreekToLower "ΟΔΟΣ" = "οδοσ" := by
    unfold ToLower; rw [String.map_eq]; decide
  have h2 : ToLower latinGreekToLower "οδος" = "οδος" := by
    unfold ToLower; rw [String.map_eq]; decide
  have a1 : (SearchForProductData.query latinGreekToLower ⟨"ΟΔΟΣ", "", ""⟩).2 = ["%οδοσ%"] := by
    have e : (SearchForProductData.query latinGreekToLower ⟨"ΟΔΟΣ", "", ""⟩).2 =
        ["%" ++ ToLower latinGreekToLower "ΟΔΟΣ" ++ "%"] := rfl
    rw [e, h1]; decide
  have a2 : (SearchForProductData.query latinGreekToLower ⟨"οδος", "", ""⟩).2 = ["%οδος%"] := by
    have e : (SearchForProductData.query latinGreekToLower ⟨"οδος", "", ""⟩).2 =
        ["%" ++ ToLower latinGreekToLower "οδος" ++ "%"] := rfl
    rw [e, h2]; decide
  refine ⟨⟨by decide, by decide, by decide⟩, by decide, a1, a2, ?_⟩
  intro h
  have hargs := congrArg Prod.snd h
  rw [a1, a2] at hargs
  revert hargs
  decide

/-- C6 as amended: two filters whose three fields agree once lower-cased (same
length, and position by position the same lower-case code point) make
`SearchForProductData` build the same text and the same bound values, and so
issue the same call on every connection; and, lower-casing being idempotent on
code points, the query of a filter is the query of that filter with every field
lower-cased. -/
theorem search_query_same_for_equal_lower_casing (lowerRune : Char → Char)
    (f g : ProductReportFilter) (hcase : sameLowerCasing lowerRune f g) :
    SearchForProductData.query lowerRune f = SearchForProductData.query lowerRune g ∧
      (∀ db : DbConn,
        SearchForProductData lowerRune db f = SearchForProductData lowerRune db g) ∧
      ((∀ c, lowerRune (lowerRune c) = lowerRune c) →
        SearchForProductData.query lowerRune (lowerFilter lowerRune f) =
          SearchForProductData.query lowerRune f) := by
  obtain ⟨c1, c2, c3⟩ := hcase
  have hq : SearchForProductData.query lowerRune f = SearchForProductData.query lowerRune g :=
    query_congr lowerRune f g
      (ToLower_eq_of_lowerAgree lowerRune _ _ c1)
      (ToLower_eq_of_lowerAgree lowerRune _ _ c2)
      (ToLower_eq_of_lowerAgree lowerRune _ _ c3)
      (eq_empty_iff_of_lowerAgree lowerRune _ _ c1)
      (eq_empty_iff_of_lowerAgree lowerRune _ _ c2)
      (eq_empty_iff_of_lowerAgree lowerRune _ _ c3)
  refine ⟨hq, ?_, ?_⟩
  · intro db
    rw [SearchForProductData_eq, SearchForProductData_eq, hq]
  · intro hidem
    exact query_congr lowerRune (lowerFilter lowerRune f) f
      (ToLower_idem lowerRune hidem _) (ToLower_idem lowerRune hidem _)
      (ToLower_idem lowerRune hidem _)
      (ToLower_eq_empty_iff lowerRune _) (ToLower_eq_empty_iff lowerRune _)
      (ToLower_eq_empty_iff lowerRune _)

/-- C6 as amended, at the filters `WIDGet / Acme / a1` and `widget / ACME / A1`
under ASCII lower-casing. -/
theorem search_query_same_for_equal_lower_casing_witness :
    sameLowerCasing Char.toLower ⟨"WIDGet", "Acme", "a1"⟩ ⟨"widget", "ACME", "A1"⟩ ∧
      SearchForProductData.query Char.toLower ⟨"WIDGet", "Acme", "a1"⟩ =
        SearchForProductData.query Char.toLower ⟨"widget", "ACME", "A1"⟩ ∧
      SearchForProductData.query Char.toLower (lowerFilter Char.toLower ⟨"WIDGet", "Acme", "a1"⟩) =
        SearchForProductData.query Char.toLower ⟨"WIDGet", "Acme", "a1"⟩ :=
  have hcase : sameLowerCasing Char.toLower ⟨"WIDGet", "Acme", "a1"⟩ ⟨"widget", "ACME", "A1"⟩ :=
    ⟨by decide, by decide, by decide⟩
  ⟨hcase,
   (search_query_same_for_equal_lower_casing Char.toLower _ _ hcase).1,
   (search_query_same_for_equal_lower_casing Char.toLower _ _ hcase).2.2 Char_toLower_idem⟩

/-! ## Point lookup -/

/-- C3: for every id, `getProduct` tells absent from failed. When the scan
reports `sql.ErrNoRows` the result is the not-found pair (no product, no
error), in particular not a zero-valued product; when it reports another error
the result is no product and that same error; when it succeeds the result is
the scanned product and no error. The three results are pairwise distinct. -/
theorem getProduct_absent_failed_found (db : DbConn) (productID : Int) :
    (∀ p, (db.QueryRowContext getProductSQL [SqlArg.int productID]).Scan Product.zero =
          (p, some GoError.ErrNoRows) →
        getProduct db productID = (none, none) ∧
          (getProduct db productID).1 ≠ some Product.zero) ∧
      (∀ p e, (db.QueryRowContext getProductSQL [SqlArg.int productID]).Scan Product.zero =
          (p, some e) → e ≠ GoError.ErrNoRows →
        getProduct db productID = (none, some e)) ∧
      (∀ p, (db.QueryRowContext getProductSQL [SqlArg.int productID]).Scan Product.zero =
          (p, none) →
        getProduct db productID = (some p, none)) ∧
      (∀ (p : Product) (e : GoError),
        ((none, none) : Option Product × Option GoError) ≠ (none, some e) ∧
          ((none, none) : Option Product × Option GoError) ≠ (some p, none) ∧
          ((none, some e) : Option Product × Option GoError) ≠ (some p, none)) := by
  refine ⟨?_, ?_, ?_, ?_⟩
  · intro p h
    have hg : getProduct db productID = (none, none) := by
      simp [getProduct, h]
    exact ⟨hg, by rw [hg]; simp⟩
  · intro p e h hne
    simp [getProduct, h, hne]
  · intro p h
    simp [getProduct, h]
  · intro p e
    simp

/-- C3 on the sample connection: identifier 7 is absent, the lookup of 13 fails,
42 is found. -/
theorem getProduct_absent_failed_found_witness :
    getProduct sampleDb 7 = (none, none) ∧
      getProduct sampleDb 13 = (none, some (GoError.other "invalid connection")) ∧
      getProduct sampleDb 42 = (some widget, none) :=
  ⟨((getProduct_absent_failed_found sampleDb 7).1 Product.zero (by decide)).1,
   (getProduct_absent_failed_found sampleDb 13).2.1 Product.zero _ (by decide) (by decide),
   (getProduct_absent_failed_found sampleDb 42).2.2.1 widget (by decide)⟩

/-! ## Statements -/

/-- C8: `updateProduct` and `removeProduct` return the error of the exec call and
nothing else. They fail exactly when the exec fails, with that error, and they
succeed for every result of a successful exec, whatever its affected-row count,
zero included. -/
theorem update_remove_return_exec_error (db : DbConn) (product : Product) (productID : Int) :
    (∀ e, db.ExecContext updateProductSQL (updateProductArgs product) = Except.error e →
        updateProduct db product = some e) ∧
      (∀ r, db.ExecContext updateProductSQL (updateProductArgs product) = Except.ok r →
        updateProduct db product = none) ∧
      (updateProduct db product ≠ none ↔
        ∃ e, db.ExecContext updateProductSQL (updateProductArgs product) = Except.error e) ∧
      (∀ e, db.ExecContext removeProductSQL [SqlArg.int productID] = Except.error e →
        removeProduct db productID = some e) ∧
      (∀ r, db.ExecContext removeProductSQL [SqlArg.int productID] = Except.ok r →
        removeProduct db productID = none) ∧
      (removeProduct db productID ≠ none ↔
        ∃ e, db.ExecContext removeProductSQL [SqlArg.int productID] = Except.error e) := by
  refine ⟨?_, ?_, ?_, ?_, ?_, ?_⟩
  · intro e h; simp [updateProduct, h]
  · intro r h; simp [updateProduct, h]
  · unfold updateProduct
    cases db.ExecContext updateProductSQL (updateProductArgs product) <;> simp
  · intro e h; simp [removeProduct, h]
  · intro r h; simp [removeProduct, h]
  · unfold removeProduct
    cases db.ExecContext removeProductSQL [SqlArg.int productID] <;> simp

/-- C8 on the sample connections: an exec that affects zero rows is a success,
and a failed exec is returned as it is. -/
theorem update_remove_return_exec_error_witness :
    (sampleDb.ExecContext updateProductSQL (updateProductArgs widget)).map
        (fun r => r.RowsAffected.toOption) = Except.ok (some 0) ∧
      updateProduct sampleDb widget = none ∧
      removeProduct sampleDb 7 = none ∧
      updateProduct brokenDb widget = some (GoError.other "invalid connection") ∧
      removeProduct brokenDb 7 = some (GoError.other "invalid connection") :=
  ⟨rfl,
   (update_remove_return_exec_error sampleDb widget 7).2.1 _ rfl,
   (update_remove_return_exec_error sampleDb widget 7).2.2.2.2.1 _ rfl,
   (update_remove_return_exec_error brokenDb widget 7).1 _ rfl,
   (update_remove_return_exec_error brokenDb widget 7).2.2.2.1 _ rfl⟩

/-- C2: `insertProduct` reports success with identifier zero when the exec call
fails and when the insert id cannot be retrieved; the error it returns is `nil`
on every connection and for every product. -/
theorem insertProduct_swallows_failures :
    brokenDb.ExecContext insertProductSQL (insertProductArgs widget) =
        Except.error (GoError.other "invalid connection") ∧
      insertProduct brokenDb widget = (0, none) ∧
      insertProduct noInsertIdDb widget = (0, none) ∧
      (∀ (db : DbConn) (product : Product), (insertProduct db product).2 = none) := by
  refine ⟨rfl, rfl, rfl, ?_⟩
  intro db product
  unfold insertProduct
  cases db.ExecContext insertProductSQL (insertProductArgs product) with
  | error e => rfl
  | ok result =>
    cases hid : result.LastInsertId <;> simp [hid]

/-! ## List operations -/

/-- The loop appends one product per row, in row order: what `Scan` left in a
fresh zero-valued product, whether or not `Scan` failed. -/
theorem scanLoop_eq (rows : List Row) (products : List Product) :
    scanLoop rows products = products ++ rows.map (fun row => (row.Scan Product.zero).1) := by
  induction rows generalizing products with
  | nil => simp [scanLoop]
  | cons row rest ih => simp [scanLoop, ih]

/-- C10: in `getProductList`, `GetTopTenProducts` and `SearchForProductData`, once
the query itself succeeds the result is a `nil` error and a non-`nil` sequence
holding one product per row iterated, in row order (the empty sequence for no
row). The element of a row is what its `Scan` left in a zero-valued product;
the error of `Scan` has no part in the result. -/
theorem list_operations_keep_every_row (lowerRune : Char → Char) (db : DbConn)
    (f : ProductReportFilter) (results : Rows) :
    (db.QueryContext getProductListSQL [] = Except.ok results →
        getProductList db =
            (some (results.rows.map (fun row => (row.Scan Product.zero).1)), none) ∧
          ∃ products, (getProductList db).1 = some products ∧
            products.length = results.rows.length) ∧
      (db.QueryContext topTenSQL [] = Except.ok results →
        GetTopTenProducts db =
            (some (results.rows.map (fun row => (row.Scan Product.zero).1)), none) ∧
          ∃ products, (GetTopTenProducts db).1 = some products ∧
            products.length = results.rows.length) ∧
      (db.QueryContext (SearchForProductData.query lowerRune f).1
            ((SearchForProductData.query lowerRune f).2.map SqlArg.text) = Except.ok results →
        SearchForProductData lowerRune db f =
            (some (results.rows.map (fun row => (row.Scan Product.zero).1)), none) ∧
          ∃ products, (SearchForProductData lowerRune db f).1 = some products ∧
            products.length = results.rows.length) := by
  refine ⟨?_, ?_, ?_⟩
  · intro h
    have hg : getProductList db =
        (some (results.rows.map (fun row => (row.Scan Product.zero).1)), none) := by
      simp [getProductList, h, scanLoop_eq]
    exact ⟨hg, _, by rw [hg], by simp⟩
  · intro h
    have hg : GetTopTenProducts db =
        (some (results.rows.map (fun row => (row.Scan Product.zero).1)), none) := by
      simp [GetTopTenProducts, h, scanLoop_eq]
    exact ⟨hg, _, by rw [hg], by simp⟩
  · intro h
    have hg : SearchForProductData lowerRune db f =
        (some (results.rows.map (fun row => (row.Scan Product.zero).1)), none) := by
      rw [SearchForProductData_eq, h]
      simp [scanLoop_eq]
    exact ⟨hg, _, by rw [hg], by simp⟩

/-- C10 on the sample connection, whose queries yield the widget row and then a
row whose `Scan` fails: both rows give an element, the second a zero-valued
product, and no error is returned. -/
theorem list_operations_keep_every_row_witness :
    getProductList sampleDb = (some [widget, Product.zero], none) ∧
      GetTopTenProducts sampleDb = (some [widget, Product.zero], none) ∧
      SearchForProductData Char.toLower sampleDb ⟨"widg", "", ""⟩ =
        (some [widget, Product.zero], none) ∧
      getProductList noInsertIdDb = (some [], none) :=
  ⟨((list_operations_keep_every_row Char.toLower sampleDb ⟨"widg", "", ""⟩
      ⟨[goodRow widget, badRow (GoError.other "converting NULL to string")]⟩).1 rfl).1,
   ((list_operations_keep_every_row Char.toLower sampleDb ⟨"widg", "", ""⟩
      ⟨[goodRow widget, badRow (GoError.other "converting NULL to string")]⟩).2.1 rfl).1,
   ((list_operations_keep_every_row Char.toLower sampleDb ⟨"widg", "", ""⟩
      ⟨[goodRow widget, badRow (GoError.other "converting NULL to string")]⟩).2.2 rfl).1,
   ((list_operations_keep_every_row Char.toLower noInsertIdDb ⟨"", "", ""⟩ ⟨[]⟩).1 rfl).1⟩

/-! ## The product map -/

/-- C7 fails on the code: `getProduct` reads the widget for identifier 42 from
the database, and afterwards the product map, empty before the call, has no
entry for 42; likewise after a successful `insertProduct` and `updateProduct`. -/
theorem productMap_not_filled_counterexample :
    (getProduct.step sampleDb 42 productMap).1 = (some widget, none) ∧
      (getProduct.step sampleDb 42 productMap).2 42 ≠ some widget ∧
      (insertProduct.step sampleDb widget productMap).1 = (43, none) ∧
      (insertProduct.step sampleDb widget productMap).2 43 = none ∧
      (updateProduct.step sampleDb widget productMap).1 = none ∧
      (updateProduct.step sampleDb widget productMap).2 42 = none := by
  refine ⟨by decide, ?_, rfl, rfl, rfl, rfl⟩
  simp [getProduct.step, productMap]

/-- C7 as amended: `getProduct`, `insertProduct` and `updateProduct` do not write
the product map. After a call of any of them, successful or not, the map is the
map before the call; started from the initial empty map it has no entry. -/
theorem productMap_untouched_by_operations (db : DbConn) (productID : Int)
    (product : Product) (m : ProductMap) :
    (getProduct.step db productID m).2 = m ∧
      (insertProduct.step db product m).2 = m ∧
      (updateProduct.step db product m).2 = m ∧
      (∀ id, (getProduct.step db productID productMap).2 id = none) ∧
      (∀ id, (insertProduct.step db product productMap).2 id = none) ∧
      (∀ id, (updateProduct.step db product productMap).2 id = none) :=
  ⟨rfl, rfl, rfl, fun _ => rfl, fun _ => rfl, fun _ => rfl⟩

end ProductData
